import Mathlib

/-!
Shallow embedding of `src/update_python_switchers.py` (Python 2).

Python strings are modelled as Lean `String`s; the byte-oriented Python 2
primitives (`str.lower`, `str.strip`, `str.split`, `in`, `startswith`,
`endswith`, `str.replace`, `string.translate`) are reimplemented below with
their Python semantics.  Fallible operations (list indexing, reading an
unbound module global) return `Option`, with `none` standing for the raised
exception (`IndexError`, `NameError`).  External effects (the `locate`
subprocess, `python -V` probing, `os.path.exists`, file writes) are passed
in explicitly: the probe is a function from a path to the raw text the
binary printed on stderr, and the filesystem writes of the main program are
returned as a list of (filename, final content) pairs.
-/

namespace UpdatePythonSwitchers

/-- Characters Python 2's `str.strip()` removes (`string.whitespace`). -/
def pyIsSpace (c : Char) : Bool :=
  c == ' ' || c == '\t' || c == '\n' || c == '\x0b' || c == '\x0c' || c == '\r'

/-- Python `s.strip()` on the character list. -/
def pyStripL (l : List Char) : List Char :=
  ((l.dropWhile pyIsSpace).reverse.dropWhile pyIsSpace).reverse

/-- Python `s.strip()`. -/
def pyStrip (s : String) : String := String.mk (pyStripL s.data)

/-- Python substring test `needle in hay` on character lists. -/
def pyInL (needle : List Char) : List Char → Bool
  | [] => needle.isEmpty
  | c :: rest => needle.isPrefixOf (c :: rest) || pyInL needle rest

/-- Python substring test `needle in hay`. -/
def pyIn (needle hay : String) : Bool := pyInL needle.data hay.data

/-- Python `s.startswith(pre)`. -/
def pyStartswith (s pre : String) : Bool := pre.data.isPrefixOf s.data

/-- Python `s.endswith(suffix)`. -/
def pyEndswith (s suffix : String) : Bool := suffix.data.isSuffixOf s.data

/-- Python `s.split(sep)` for a non-empty separator, on character lists:
scan left to right, cutting at each non-overlapping occurrence of `sep`.
The `fuel` argument only makes the recursion structural; the caller always
supplies enough of it. -/
def pySplitGo (sep : List Char) : Nat → List Char → List Char → List (List Char)
  | 0, s, acc => [acc.reverse ++ s]
  | Nat.succ fuel, s, acc =>
    match s with
    | [] => [acc.reverse]
    | c :: rest =>
      if sep.isPrefixOf (c :: rest) then
        acc.reverse :: pySplitGo sep fuel ((c :: rest).drop sep.length) []
      else
        pySplitGo sep fuel rest (c :: acc)

/-- Python `s.split(sep)` on character lists. -/
def pySplitL (sep l : List Char) : List (List Char) :=
  pySplitGo sep (l.length + 1) l []

/-- Python `s.split(sep)`. -/
def pySplit (sep s : String) : List String :=
  (pySplitL sep.data s.data).map String.mk

/-- ASCII uppercase-to-lowercase pairs: Python 2 `str.lower()` on byte
strings in the C locale lowers exactly the ASCII letters. -/
def UPPER_LOWER : List (Char × Char) :=
  [('A', 'a'), ('B', 'b'), ('C', 'c'), ('D', 'd'), ('E', 'e'), ('F', 'f'),
   ('G', 'g'), ('H', 'h'), ('I', 'i'), ('J', 'j'), ('K', 'k'), ('L', 'l'),
   ('M', 'm'), ('N', 'n'), ('O', 'o'), ('P', 'p'), ('Q', 'q'), ('R', 'r'),
   ('S', 's'), ('T', 't'), ('U', 'u'), ('V', 'v'), ('W', 'w'), ('X', 'x'),
   ('Y', 'y'), ('Z', 'z')]

/-- Python 2 `str.lower()` on one byte. -/
def pyLowerChar (c : Char) : Char :=
  match UPPER_LOWER.find? (fun pr => pr.1 == c) with
  | some pr => pr.2
  | none => c

/-- The delete set of `string.translate(s, None, ':.()[]\x7b\x7d')` in
`make_bash_func_string` (colon, dot, parentheses, square and curly
brackets). -/
def DELETED_CHARS : List Char :=
  [':', '.', '(', ')', '[', ']', '\x7b', '\x7d']

/-- Python single-character `s.replace(old, new)` as a character map. -/
def pyReplaceChar (old new : Char) (l : List Char) : List Char :=
  l.map (fun c => if c = old then new else c)

/-- Embedding of `make_bash_func_string` on character lists: delete the
characters of `DELETED_CHARS`, lowercase, then replace each space and each
hyphen with an underscore (the source loops over the two characters of
`' -'`, replacing each in turn). -/
def make_bash_func_stringL (l : List Char) : List Char :=
  pyReplaceChar '-' '_'
    (pyReplaceChar ' ' '_'
      ((l.filter (fun c => !(DELETED_CHARS.contains c))).map pyLowerChar))

/-- Embedding of `make_bash_func_string`: transforms a string into
something suitable for a shell function name. -/
def make_bash_func_string (s : String) : String :=
  String.mk (make_bash_func_stringL s.data)

/-- Embedding of `make_short_strings`.  Python list indexing `[1]` raises
`IndexError` when `split` produced fewer than two pieces; the raise is
modelled by `none`. -/
def make_short_strings (version_string : String) : Option (String × String) :=
  if pyIn "-- EPD" version_string then
    ((pySplit "--" version_string)[1]?).map (fun piece =>
      let epd_version := pyStrip piece
      (epd_version, make_bash_func_string epd_version))
  else if pyIn "Anaconda" version_string then
    ((pySplit "::" version_string)[1]?).map (fun piece =>
      let anaconda_version := pyStrip piece
      (anaconda_version, make_bash_func_string anaconda_version))
  else if pyIn "MacPython" version_string then
    ((pySplit "--" version_string)[0]?).bind (fun piece0 =>
      ((pySplit "Python" piece0)[1]?).map (fun piece1 =>
        let python_version := pyStrip piece1
        let macpython_version := "MacPython " ++ python_version
        (macpython_version, make_bash_func_string macpython_version)))
  else if pyIn "System" version_string then
    some (version_string, make_bash_func_string version_string)
  else
    some (version_string, make_bash_func_string version_string)

/-- Constant `SYSTEM_ROOT` of the source. -/
def SYSTEM_ROOT : String := "/System/Library/Frameworks/Python.framework"

/-- Constant `MACPYTHON_ROOT` of the source. -/
def MACPYTHON_ROOT : String := "/Library/Frameworks/Python.framework"

/-- Embedding of `get_python_version`: run `path -V` through a pipe and
strip the captured stderr text.  The subprocess is modelled by `stderr_of`,
mapping the binary's path to the raw bytes it printed on stderr. -/
def get_python_version (stderr_of : String → String) (python_filepath : String) : String :=
  pyStrip (stderr_of python_filepath)

/-- Embedding of `os.path.dirname` (posixpath): everything up to and
including the last slash, then, when that head is non-empty and not all
slashes, with its trailing slashes stripped. -/
def os_path_dirnameL (l : List Char) : List Char :=
  let i := match l.reverse.findIdx? (fun c => c == '/') with
    | some k => l.length - k
    | none => 0
  let head := l.take i
  if head.isEmpty then head
  else if head.all (fun c => c == '/') then head
  else (head.reverse.dropWhile (fun c => c == '/')).reverse

/-- Embedding of `os.path.dirname` on strings. -/
def os_path_dirname (s : String) : String := String.mk (os_path_dirnameL s.data)

example : os_path_dirname "/usr/bin/python" = "/usr/bin" := by decide
example : os_path_dirname "python" = "" := by decide

/-- Embedding of `generate_bash_select_func`.  In the source the `values`
dict is built from the module global `bash_func_name` (the parameter is
spelled `bash_function_name` and is never read): the ambient global is
passed here explicitly, `none` standing for an unbound global, whose read
raises `NameError`, modelled by `none`. -/
def generate_bash_select_func (bash_func_name_global : Option String)
    (python_filepath version_string prompt_string bash_function_name : String) :
    Option String :=
  match bash_func_name_global with
  | none => none
  | some bash_func_name =>
    some ("select_" ++ bash_func_name ++ "()\n\x7b\n    echo \"Setting environment for "
      ++ version_string ++ "\"\n    export PATH=\"" ++ os_path_dirname python_filepath
      ++ ":$\x7bPRISTINE_INIT_PATH\x7d\"\n    export PROMPT_PYTHON_VERSION=\""
      ++ prompt_string ++ "\"\n\x7d\n\n")

/-- Embedding of `generate_fish_select_function`.  Like its bash
counterpart it reads the module global `bash_func_name` and never reads its
`bash_function_name` parameter. -/
def generate_fish_select_function (bash_func_name_global : Option String)
    (python_filepath version_string prompt_string bash_function_name : String) :
    Option String :=
  match bash_func_name_global with
  | none => none
  | some bash_func_name =>
    some ("function select_" ++ bash_func_name ++ "\n    printf \"Setting environment for "
      ++ version_string ++ "\"\n    set -gx PATH " ++ os_path_dirname python_filepath
      ++ " $PRISTINE_INIT_PATH\n    set -gx PROMPT_PYTHON_VERSION \""
      ++ prompt_string ++ "\"\nend\n\n")

/-- Embedding of `make_version_strings`.  The source probes
`get_python_version(p)` where `p` is a module global (in the program run it
is the loop variable of the main block), not the `python_filepath`
parameter: the ambient global is passed here explicitly, `none` standing
for an unbound global (`NameError`). -/
def make_version_strings (stderr_of : String → String) (p_global : Option String)
    (python_filepath : String) : Option (String × String × String) :=
  match p_global with
  | none => none
  | some p =>
    let version_string := get_python_version stderr_of p
    if pyStartswith python_filepath MACPYTHON_ROOT then
      let version_string := version_string ++ " -- MacPython"
      (make_short_strings version_string).map (fun st => (version_string, st.1, st.2))
    else if pyStartswith python_filepath SYSTEM_ROOT || pyStartswith python_filepath "/usr" then
      let version_string := "System " ++ version_string
      (make_short_strings version_string).map (fun st => (version_string, st.1, st.2))
    else
      (make_short_strings version_string).map (fun st => (version_string, st.1, st.2))

example :
    make_version_strings (fun _ => "Python 2.7.1\n") (some "/usr/bin/python") "/usr/bin/python" =
      some ("System Python 2.7.1", "System Python 2.7.1", "system_python_271") := by decide

example :
    make_version_strings (fun _ => "Python 2.7.1\n")
        (some "/Library/Frameworks/Python.framework/Versions/2.7/bin/python")
        "/Library/Frameworks/Python.framework/Versions/2.7/bin/python" =
      some ("Python 2.7.1 -- MacPython", "MacPython 2.7.1", "macpython_271") := by decide

/-- Embedding of `is_python_filepath`: a path names a python binary when it
ends with `bin/python` or `bin/python3`. -/
def is_python_filepath (filepath : String) : Bool :=
  pyEndswith filepath "bin/python" || pyEndswith filepath "bin/python3"

/-- Compiled regular expressions, standing for the pattern strings the
source hands to `re.match`: literal characters, `.`, alternation,
concatenation and Kleene star cover the patterns the program uses. -/
inductive Regex where
  | fail : Regex
  | eps : Regex
  | chr : Char → Regex
  | dot : Regex
  | seq : Regex → Regex → Regex
  | alt : Regex → Regex → Regex
  | star : Regex → Regex
deriving DecidableEq

/-- Whether a regular expression accepts the empty string. -/
def nullable : Regex → Bool
  | .fail => false
  | .eps => true
  | .chr _ => false
  | .dot => false
  | .seq a b => nullable a && nullable b
  | .alt a b => nullable a || nullable b
  | .star _ => true

/-- Brzozowski derivative of a regular expression by one character. -/
def deriv (c : Char) : Regex → Regex
  | .fail => .fail
  | .eps => .fail
  | .chr d => if c = d then .eps else .fail
  | .dot => .eps
  | .seq a b =>
    if nullable a then .alt (.seq (deriv c a) b) (deriv c b) else .seq (deriv c a) b
  | .alt a b => .alt (deriv c a) (deriv c b)
  | .star r => .seq (deriv c r) (.star r)

/-- Whether a regular expression accepts the whole character list. -/
def matchesFull (r : Regex) : List Char → Bool
  | [] => nullable r
  | c :: cs => matchesFull (deriv c r) cs

/-- Embedding of `re.match(pattern, s)` viewed as a boolean: true exactly
when the pattern matches at the start of `s`, consuming some of its
characters (Python's `re.match` anchors at the beginning only). -/
def reMatch (r : Regex) : List Char → Bool
  | [] => nullable r
  | c :: cs => nullable r || reMatch (deriv c r) cs

/-- Embedding of `is_python_executable`: the path must name a python
binary, exist, and match none of the excluded patterns via `re.match`. -/
def is_python_executable (filepath : String) (excluded_patterns : List Regex)
    (file_exists : String → Bool) : Bool :=
  if !(is_python_filepath filepath) || !(file_exists filepath) then false
  else !(excluded_patterns.any (fun pattern => reMatch pattern filepath.data))

/-- Embedding of `detect_all_python_installs`: split the stdout of
`locate bin/python` on newlines and keep the python executables that no
excluded pattern matches.  The `locate` subprocess is modelled by its
stdout text, `os.path.exists` by the `file_exists` predicate. -/
def detect_all_python_installs (locate_stdout : String) (file_exists : String → Bool)
    (excluded_patterns : List Regex) : List String :=
  let results := pySplit "\n" locate_stdout
  results.filter (fun each => is_python_executable each excluded_patterns file_exists)

/-- The per-installation body of the main program's write-mode loop: for
each detected path `p`, derive the version strings (the module global `p`
holds the loop variable, and the module global `bash_func_name` is bound by
the destructuring assignment before the generators run), render both
functions, and append them to the two files.  Returns the text appended to
the `.sh` file, the text appended to the `.fish` file, and whether the loop
ran to completion (an uncaught exception aborts it, leaving the files with
only what was already written). -/
def emit_loop (stderr_of : String → String) : List String → String × String × Bool
  | [] => ("", "", true)
  | p :: rest =>
    match make_version_strings stderr_of (some p) p with
    | none => ("", "", false)
    | some fvb =>
      match generate_bash_select_func (some fvb.2.2) p fvb.1 fvb.2.1 fvb.2.2,
            generate_fish_select_function (some fvb.2.2) p fvb.1 fvb.2.1 fvb.2.2 with
      | some bash_func, some fish_func =>
        let sfo := emit_loop stderr_of rest
        (bash_func ++ sfo.1, fish_func ++ sfo.2.1, sfo.2.2)
      | _, _ => ("", "", false)

/-- Embedding of the `if __name__ == '__main__'` block, with the external
world passed in: the stdout of `locate`, the existence predicate, the
excluded patterns, and the probe.  The returned list holds the filesystem
writes the run performs, as (filename, final file content) pairs: dry-run
mode writes nothing; write mode opens `<basename>.sh` and
`<basename>.fish`, writes one preserved-PATH initializer line to each, and
then appends each detected installation's two rendered functions. -/
def run_main (dry_run : Bool) (outfile_basename : String) (locate_stdout : String)
    (file_exists : String → Bool) (excluded_patterns : List Regex)
    (stderr_of : String → String) : List (String × String) :=
  let installed_pythons := detect_all_python_installs locate_stdout file_exists excluded_patterns
  if dry_run then []
  else
    let sfo := emit_loop stderr_of installed_pythons
    [(outfile_basename ++ ".sh", "export PRISTINE_INIT_PATH=$PATH\n" ++ sfo.1),
     (outfile_basename ++ ".fish", "set -gx PRISTINE_INIT_PATH $PATH\n" ++ sfo.2.1)]

/-- C1: `make_short_strings` satisfies the spec's round-trip table exactly,
producing the given short form and shell-identifier token on each of the
three sample version strings. -/
theorem make_short_strings_table :
    make_short_strings "Python 2.7.2 -- EPD 7.2-2 (64-bit)" =
        some ("EPD 7.2-2 (64-bit)", "epd_72_2_64_bit") ∧
    make_short_strings "Python 2.7.1 -- MacPython" =
        some ("MacPython 2.7.1", "macpython_271") ∧
    make_short_strings "Python 2.7.5 :: Anaconda 1.6.1 (x86_64)" =
        some ("Anaconda 1.6.1 (x86_64)", "anaconda_161_x86_64") := by
  refine ⟨by decide, by decide, by decide⟩

/-- C2: contrary to the claim, the two generators do not name the emitted
function after the identifier token they are given: both read the module
global `bash_func_name` instead of their fourth parameter, so with no
ambient global they raise `NameError` (modelled by `none`), and with an
ambient global `"other"` they emit `select_other` and not `select_tok`
although the token passed as argument is `"tok"`. -/
theorem generate_select_funcs_use_global_token :
    generate_bash_select_func none "/usr/local/bin/python" "Python 2.7.2" "2.7.2" "tok" = none ∧
    generate_fish_select_function none "/usr/local/bin/python" "Python 2.7.2" "2.7.2" "tok" = none ∧
    pyIn "select_tok"
      ((generate_bash_select_func (some "other") "/usr/local/bin/python" "Python 2.7.2"
        "2.7.2" "tok").getD "") = false ∧
    pyIn "select_other"
      ((generate_bash_select_func (some "other") "/usr/local/bin/python" "Python 2.7.2"
        "2.7.2" "tok").getD "") = true ∧
    pyIn "select_tok"
      ((generate_fish_select_function (some "other") "/usr/local/bin/python" "Python 2.7.2"
        "2.7.2" "tok").getD "") = false ∧
    pyIn "select_other"
      ((generate_fish_select_function (some "other") "/usr/local/bin/python" "Python 2.7.2"
        "2.7.2" "tok").getD "") = true := by
  refine ⟨rfl, rfl, by decide, by decide, by decide, by decide⟩

/-- C3: contrary to the claim, the triple returned by
`make_version_strings` is not determined by the path argument and the probe
of that path: the source calls `get_python_version(p)` on the module global
`p`, so with the same path argument `/opt/bin/python` and the same prober,
two different values of the ambient global yield two different triples, and
an unbound global raises `NameError` (modelled by `none`). -/
theorem make_version_strings_reads_ambient_global :
    make_version_strings (fun _ => "Python 2.7.1") none "/opt/bin/python" = none ∧
    make_version_strings
        (fun s => if s = "/a/bin/python" then "Python 2.7.1" else "Python 3.0.0")
        (some "/a/bin/python") "/opt/bin/python" ≠
      make_version_strings
        (fun s => if s = "/a/bin/python" then "Python 2.7.1" else "Python 3.0.0")
        (some "/b/bin/python") "/opt/bin/python" := by
  refine ⟨rfl, by decide⟩

/-- C6 counterexample: on the malformed version string `"Anaconda"` (the
marker is present but no `::` separator is), `make_short_strings` does not
fall through to the unmodified-string branch: the index `[1]` into the
one-piece split raises `IndexError` (modelled by `none`), so no pair is
returned at all. -/
theorem make_short_strings_anaconda_raises :
    make_short_strings "Anaconda" = none := by decide

/-- C6 (amended): for every version string containing none of the three
vendor markers `-- EPD`, `Anaconda` and `MacPython`, `make_short_strings`
falls through and returns the string unchanged as the short form, paired
with its derived token. -/
theorem make_short_strings_fallthrough (version_string : String)
    (h1 : pyIn "-- EPD" version_string = false)
    (h2 : pyIn "Anaconda" version_string = false)
    (h3 : pyIn "MacPython" version_string = false) :
    make_short_strings version_string =
      some (version_string, make_bash_func_string version_string) := by
  unfold make_short_strings
  rw [h1, h2, h3]
  simp only [Bool.false_eq_true, if_false]
  cases pyIn "System" version_string <;> simp

/-- C6 witness: the fall-through branch evaluated at the marker-free
version string `"Python 2.7.3"`. -/
theorem make_short_strings_fallthrough_witness :
    make_short_strings "Python 2.7.3" =
      some ("Python 2.7.3", make_bash_func_string "Python 2.7.3") :=
  make_short_strings_fallthrough "Python 2.7.3" (by decide) (by decide) (by decide)

/-- One surviving character's trip through `make_bash_func_string`:
lowercase, then map a space and then a hyphen to an underscore.  This is
the function the two `pyReplaceChar` passes compose to. -/
def bashNameChar (c : Char) : Char :=
  let d := pyLowerChar c
  let e := if d = ' ' then '_' else d
  if e = '-' then '_' else e

lemma make_bash_func_stringL_eq (l : List Char) :
    make_bash_func_stringL l =
      (l.filter (fun c => !(DELETED_CHARS.contains c))).map bashNameChar := by
  simp only [make_bash_func_stringL, pyReplaceChar, List.map_map]
  rfl

lemma pyLowerChar_pairs :
    ∀ pr ∈ UPPER_LOWER,
      pyLowerChar pr.2 = pr.2 ∧ DELETED_CHARS.contains pr.2 = false ∧
      pr.2 ≠ ' ' ∧ pr.2 ≠ '-' := by decide

lemma pyLowerChar_idem (c : Char) : pyLowerChar (pyLowerChar c) = pyLowerChar c := by
  cases h : UPPER_LOWER.find? (fun pr => pr.1 == c) with
  | none =>
    have hc : pyLowerChar c = c := by simp [pyLowerChar, h]
    rw [hc]
    exact hc
  | some pr =>
    have hmem := List.mem_of_find?_eq_some h
    have hc : pyLowerChar c = pr.2 := by simp [pyLowerChar, h]
    rw [hc]
    exact (pyLowerChar_pairs pr hmem).1

lemma contains_pyLowerChar (c : Char) (hc : DELETED_CHARS.contains c = false) :
    DELETED_CHARS.contains (pyLowerChar c) = false := by
  cases h : UPPER_LOWER.find? (fun pr => pr.1 == c) with
  | none => simpa [pyLowerChar, h] using hc
  | some pr =>
    have hmem := List.mem_of_find?_eq_some h
    have hc' : pyLowerChar c = pr.2 := by simp [pyLowerChar, h]
    rw [hc']
    exact (pyLowerChar_pairs pr hmem).2.1

lemma bashNameChar_underscore : bashNameChar '_' = '_' := by decide

lemma bashNameChar_idem (c : Char) : bashNameChar (bashNameChar c) = bashNameChar c := by
  by_cases h1 : pyLowerChar c = ' '
  · have hb : bashNameChar c = '_' := by simp [bashNameChar, h1]
    rw [hb, bashNameChar_underscore]
  · by_cases h2 : pyLowerChar c = '-'
    · have hb : bashNameChar c = '_' := by simp [bashNameChar, h1, h2]
      rw [hb, bashNameChar_underscore]
    · have hb : bashNameChar c = pyLowerChar c := by simp [bashNameChar, h1, h2]
      rw [hb]
      simp [bashNameChar, pyLowerChar_idem, h1, h2]

lemma contains_bashNameChar (c : Char) (hc : DELETED_CHARS.contains c = false) :
    DELETED_CHARS.contains (bashNameChar c) = false := by
  by_cases h1 : pyLowerChar c = ' '
  · have hb : bashNameChar c = '_' := by simp [bashNameChar, h1]
    rw [hb]; decide
  · by_cases h2 : pyLowerChar c = '-'
    · have hb : bashNameChar c = '_' := by simp [bashNameChar, h1, h2]
      rw [hb]; decide
    · have hb : bashNameChar c = pyLowerChar c := by simp [bashNameChar, h1, h2]
      rw [hb]
      exact contains_pyLowerChar c hc

lemma map_map_bashNameChar (m : List Char) :
    (m.map bashNameChar).map bashNameChar = m.map bashNameChar := by
  induction m with
  | nil => rfl
  | cons c rest ih =>
    simp only [List.map_cons]
    rw [bashNameChar_idem c, ih]

lemma make_bash_func_stringL_idem (l : List Char) :
    make_bash_func_stringL (make_bash_func_stringL l) = make_bash_func_stringL l := by
  simp only [make_bash_func_stringL_eq]
  have hfil :
      ((l.filter (fun c => !(DELETED_CHARS.contains c))).map bashNameChar).filter
          (fun c => !(DELETED_CHARS.contains c)) =
        (l.filter (fun c => !(DELETED_CHARS.contains c))).map bashNameChar := by
    refine List.filter_eq_self.mpr ?_
    intro a ha
    obtain ⟨b, hb, rfl⟩ := List.mem_map.mp ha
    have hbk : DELETED_CHARS.contains b = false := by
      have := (List.mem_filter.mp hb).2
      simpa using this
    simpa using contains_bashNameChar b hbk
  rw [hfil]
  exact map_map_bashNameChar _

/-- C8: token derivation is idempotent: deriving a token from an
already-derived token returns it unchanged. -/
theorem make_bash_func_string_idempotent (s : String) :
    make_bash_func_string (make_bash_func_string s) = make_bash_func_string s := by
  show String.mk (make_bash_func_stringL (make_bash_func_stringL s.data)) =
    String.mk (make_bash_func_stringL s.data)
  rw [make_bash_func_stringL_idem]

/-- C9: `is_python_filepath` holds exactly on the paths ending with the
bare-interpreter suffix `bin/python` or the major-version-3 suffix
`bin/python3`. -/
theorem is_python_filepath_iff (filepath : String) :
    is_python_filepath filepath = true ↔
      ("bin/python".data <:+ filepath.data ∨ "bin/python3".data <:+ filepath.data) := by
  simp [is_python_filepath, pyEndswith]

lemma reMatch_iff (r : Regex) (l : List Char) :
    reMatch r l = true ↔
      ∃ consumed rest, l = consumed ++ rest ∧ matchesFull r consumed = true := by
  induction l generalizing r with
  | nil =>
    constructor
    · intro h
      exact ⟨[], [], rfl, h⟩
    · rintro ⟨consumed, rest, hpq, hm⟩
      have hp : consumed = [] := by
        cases consumed
        · rfl
        · simp at hpq
      subst hp
      exact hm
  | cons c cs ih =>
    simp only [reMatch, Bool.or_eq_true]
    constructor
    · rintro (hn | hr)
      · exact ⟨[], c :: cs, rfl, hn⟩
      · obtain ⟨consumed, rest, hpq, hm⟩ := (ih (deriv c r)).mp hr
        exact ⟨c :: consumed, rest, by rw [hpq, List.cons_append], hm⟩
    · rintro ⟨consumed, rest, hpq, hm⟩
      cases consumed with
      | nil =>
        left
        exact hm
      | cons c' p' =>
        rw [List.cons_append] at hpq
        injection hpq with hc hcs
        subst hc
        right
        exact (ih (deriv c r)).mpr ⟨p', rest, hcs, hm⟩

lemma is_python_executable_true_iff (filepath : String) (excluded_patterns : List Regex)
    (file_exists : String → Bool) :
    is_python_executable filepath excluded_patterns file_exists = true ↔
      (is_python_filepath filepath = true ∧ file_exists filepath = true ∧
       ∀ pattern ∈ excluded_patterns, reMatch pattern filepath.data = false) := by
  unfold is_python_executable
  cases h1 : is_python_filepath filepath <;> cases h2 : file_exists filepath <;>
    simp [h1, h2, List.any_eq_false]

/-- C4: `is_python_executable` accepts a path exactly when it names a
python binary, exists, and no excluded pattern matches at the start of the
path (`re.match` matches a pattern against some leading prefix of the
subject, never in the middle); consequently a path at whose start any one
excluded pattern matches is absent from the list
`detect_all_python_installs` returns. -/
theorem is_python_executable_excludes (filepath locate_stdout : String)
    (excluded_patterns : List Regex) (file_exists : String → Bool) :
    (is_python_executable filepath excluded_patterns file_exists = true ↔
      (is_python_filepath filepath = true ∧ file_exists filepath = true ∧
       ∀ pattern ∈ excluded_patterns,
         ¬ ∃ consumed rest, filepath.data = consumed ++ rest ∧
           matchesFull pattern consumed = true)) ∧
    (∀ pattern ∈ excluded_patterns,
      (∃ consumed rest, filepath.data = consumed ++ rest ∧ matchesFull pattern consumed = true) →
        filepath ∉ detect_all_python_installs locate_stdout file_exists excluded_patterns) := by
  have hchar := is_python_executable_true_iff filepath excluded_patterns file_exists
  have hpat : ∀ pattern : Regex,
      reMatch pattern filepath.data = false ↔
        ¬ ∃ consumed rest, filepath.data = consumed ++ rest ∧
          matchesFull pattern consumed = true := by
    intro pattern
    rw [← reMatch_iff pattern filepath.data]
    cases hre : reMatch pattern filepath.data <;> simp
  constructor
  · refine Iff.trans hchar (and_congr_right fun _ => and_congr_right fun _ => ?_)
    exact forall₂_congr fun pattern _ => hpat pattern
  · intro pattern hmem hex hdet
    simp only [detect_all_python_installs] at hdet
    have htrue : is_python_executable filepath excluded_patterns file_exists = true :=
      (List.mem_filter.mp hdet).2
    have h3 := (hchar.mp htrue).2.2 pattern hmem
    have h4 := (reMatch_iff pattern filepath.data).mpr hex
    rw [h3] at h4
    exact Bool.noConfusion h4

/-- C10: filtering is antitone in the exclusion-pattern list: a path
`is_python_executable` rejects under patterns `P` it also rejects under any
superset `Q`, and every path detected under `Q` is also detected under `P`
— adding patterns can only remove detected installations. -/
theorem exclusion_patterns_antitone (filepath locate_stdout : String)
    (file_exists : String → Bool) (P Q : List Regex) (hPQ : ∀ r ∈ P, r ∈ Q) :
    (is_python_executable filepath P file_exists = false →
      is_python_executable filepath Q file_exists = false) ∧
    (∀ p ∈ detect_all_python_installs locate_stdout file_exists Q,
      p ∈ detect_all_python_installs locate_stdout file_exists P) := by
  have key : ∀ f : String, is_python_executable f Q file_exists = true →
      is_python_executable f P file_exists = true := by
    intro f hQ
    have h := (is_python_executable_true_iff f Q file_exists).mp hQ
    exact (is_python_executable_true_iff f P file_exists).mpr
      ⟨h.1, h.2.1, fun pattern hm => h.2.2 pattern (hPQ pattern hm)⟩
  constructor
  · intro hP
    cases hQ : is_python_executable filepath Q file_exists
    · rfl
    · rw [key filepath hQ] at hP
      exact Bool.noConfusion hP
  · intro p hp
    simp only [detect_all_python_installs] at hp ⊢
    have h := List.mem_filter.mp hp
    exact List.mem_filter.mpr ⟨h.1, key p h.2⟩

/-- C10 witness: the antitone property instantiated at the empty pattern
list against the one-pattern list `[.dot]` on the path `/usr/bin/python`. -/
theorem exclusion_patterns_antitone_witness :
    (is_python_executable "/usr/bin/python" [] (fun _ => false) = false →
      is_python_executable "/usr/bin/python" [Regex.dot] (fun _ => false) = false) ∧
    (∀ p ∈ detect_all_python_installs "/usr/bin/python" (fun _ => false) [Regex.dot],
      p ∈ detect_all_python_installs "/usr/bin/python" (fun _ => false) []) :=
  exclusion_patterns_antitone "/usr/bin/python" "/usr/bin/python" (fun _ => false) []
    [Regex.dot] (by simp)

/-- C5: vendor qualification in `make_version_strings` applies the first
matching rule in order — under `MACPYTHON_ROOT` the probed version string
gets the suffix `" -- MacPython"`, else under `SYSTEM_ROOT` or `/usr` it
gets the tag `"System "` prefixed, else it is unmodified — and in every
case the short form and token are re-derived from the resulting string by
`make_short_strings`. -/
theorem make_version_strings_vendor_rules (stderr_of : String → String)
    (g python_filepath : String) :
    make_version_strings stderr_of (some g) python_filepath =
      (let v := get_python_version stderr_of g
       let full :=
         if pyStartswith python_filepath MACPYTHON_ROOT then v ++ " -- MacPython"
         else if pyStartswith python_filepath SYSTEM_ROOT ||
             pyStartswith python_filepath "/usr" then "System " ++ v
         else v
       (make_short_strings full).map (fun st => (full, st.1, st.2))) := by
  simp only [make_version_strings]
  cases h1 : pyStartswith python_filepath MACPYTHON_ROOT <;>
    cases h2 : pyStartswith python_filepath SYSTEM_ROOT ||
      pyStartswith python_filepath "/usr" <;>
    simp [h1, h2]

/-- Concatenation of a list of text fragments, in order: the contents a
sequence of `file.write` calls accumulates. -/
def joinAll : List String → String
  | [] => ""
  | s :: rest => s ++ joinAll rest

lemma emit_loop_eq (stderr_of : String → String)
    (results : String → String × String × String) (installs : List String)
    (h : ∀ p ∈ installs, make_version_strings stderr_of (some p) p = some (results p)) :
    emit_loop stderr_of installs =
      (joinAll (installs.map (fun p =>
         (generate_bash_select_func (some (results p).2.2) p (results p).1 (results p).2.1
           (results p).2.2).getD "")),
       joinAll (installs.map (fun p =>
         (generate_fish_select_function (some (results p).2.2) p (results p).1 (results p).2.1
           (results p).2.2).getD "")),
       true) := by
  induction installs with
  | nil => rfl
  | cons p rest ih =>
    have hp := h p (List.mem_cons_self p rest)
    have hrest : ∀ q ∈ rest, make_version_strings stderr_of (some q) q = some (results q) :=
      fun q hq => h q (List.mem_cons_of_mem p hq)
    simp only [emit_loop, hp]
    rw [ih hrest]
    simp only [generate_bash_select_func, generate_fish_select_function, List.map_cons,
      joinAll, Option.getD_some]

/-- C7 counterexample: in write mode with one detected installation whose
probed version string is the malformed `"Anaconda"`, the run aborts inside
the loop (the `IndexError` of `make_short_strings` propagates), leaving
both opened files holding only their preserved-PATH initializer line — two
files are written, but they contain no switch function although one
installation was detected. -/
theorem run_main_partial_write_on_failure :
    detect_all_python_installs "/a/bin/python" (fun _ => true) [] = ["/a/bin/python"] ∧
    run_main false "/a" "/a/bin/python" (fun _ => true) [] (fun _ => "Anaconda") =
      [("/a.sh", "export PRISTINE_INIT_PATH=$PATH\n"),
       ("/a.fish", "set -gx PRISTINE_INIT_PATH $PATH\n")] := by
  refine ⟨by decide, by decide⟩

/-- C7 (amended): a dry run performs no filesystem write at all; a write
run whose every detected installation derives its version strings
successfully writes exactly two files, `<basename>.sh` and
`<basename>.fish`, each beginning with one preserved-PATH initializer line
and then holding exactly one rendered switch function per detected,
non-excluded installation, in order.  (When a derivation fails the run
aborts and the files keep only the functions already written.) -/
theorem run_main_writes (outfile_basename locate_stdout : String)
    (file_exists : String → Bool) (excluded_patterns : List Regex)
    (stderr_of : String → String) (results : String → String × String × String)
    (h : ∀ p ∈ detect_all_python_installs locate_stdout file_exists excluded_patterns,
      make_version_strings stderr_of (some p) p = some (results p)) :
    run_main true outfile_basename locate_stdout file_exists excluded_patterns stderr_of = [] ∧
    run_main false outfile_basename locate_stdout file_exists excluded_patterns stderr_of =
      [(outfile_basename ++ ".sh",
        "export PRISTINE_INIT_PATH=$PATH\n" ++
          joinAll ((detect_all_python_installs locate_stdout file_exists excluded_patterns).map
            (fun p => (generate_bash_select_func (some (results p).2.2) p (results p).1
              (results p).2.1 (results p).2.2).getD ""))),
       (outfile_basename ++ ".fish",
        "set -gx PRISTINE_INIT_PATH $PATH\n" ++
          joinAll ((detect_all_python_installs locate_stdout file_exists excluded_patterns).map
            (fun p => (generate_fish_select_function (some (results p).2.2) p (results p).1
              (results p).2.1 (results p).2.2).getD "")))] := by
  constructor
  · rfl
  · simp only [run_main]
    rw [emit_loop_eq stderr_of results _ h]
    simp

/-- C7 witness: one detected system python, probed as `Python 2.7.1`,
yields the two files with exactly its two rendered functions. -/
theorem run_main_writes_witness :
    run_main true "/h/.python_switchers" "/usr/bin/python\n" (fun _ => true) []
        (fun _ => "Python 2.7.1\n") = [] ∧
    run_main false "/h/.python_switchers" "/usr/bin/python\n" (fun _ => true) []
        (fun _ => "Python 2.7.1\n") =
      [("/h/.python_switchers.sh",
        "export PRISTINE_INIT_PATH=$PATH\n" ++
          joinAll ((detect_all_python_installs "/usr/bin/python\n" (fun _ => true) []).map
            (fun p => (generate_bash_select_func (some "system_python_271") p
              "System Python 2.7.1" "System Python 2.7.1" "system_python_271").getD ""))),
       ("/h/.python_switchers.fish",
        "set -gx PRISTINE_INIT_PATH $PATH\n" ++
          joinAll ((detect_all_python_installs "/usr/bin/python\n" (fun _ => true) []).map
            (fun p => (generate_fish_select_function (some "system_python_271") p
              "System Python 2.7.1" "System Python 2.7.1" "system_python_271").getD "")))] :=
  run_main_writes "/h/.python_switchers" "/usr/bin/python\n" (fun _ => true) []
    (fun _ => "Python 2.7.1\n")
    (fun _ => ("System Python 2.7.1", "System Python 2.7.1", "system_python_271"))
    (by decide)

end UpdatePythonSwitchers
